import Mathlib

/-!
Shallow embedding of the harvesting/persistence core of the scraping
repository (data models, price normalization, SQLite-backed store, and the
three extraction adapters), together with theorems settling the spec claims.

Python strings are modelled as Lean `String`/`List Char`; Python `None` as
`Option.none`; Python floats as `ℚ` (no value in scope exercises binary
rounding); SQLite tables as Lean lists of rows in insertion order.
-/

set_option maxRecDepth 4000

/-- Python truthiness of an optional string: `None` and `""` are falsy. -/
def optTruthy : Option String → Bool
  | none => false
  | some s => s != ""

/-- Python `str.split(sep)` on character lists: `"".split(sep) == [""]`. -/
def splitChar (sep : Char) : List Char → List (List Char)
  | [] => [[]]
  | c :: cs =>
    match splitChar sep cs with
    | [] => [[]]
    | g :: gs => if c = sep then [] :: g :: gs else (c :: g) :: gs

/-- Whether `pat` is a prefix of `hay` (Python `str.startswith` on lists). -/
def startsWithList : List Char → List Char → Bool
  | [], _ => true
  | _ :: _, [] => false
  | p :: ps, h :: hs => p = h && startsWithList ps hs

/-- Whether `pat` occurs contiguously inside `hay` (Python `pat in hay`). -/
def hasSub (hay pat : List Char) : Bool :=
  match hay with
  | [] => pat.isEmpty
  | _ :: t => startsWithList pat hay || hasSub t pat

/-- Python substring test `pat in hay` on strings. -/
def strContains (hay pat : String) : Bool :=
  hasSub hay.toList pat.toList

/-- Numeric value of a decimal digit string, most significant digit first. -/
def natOfDigits (cs : List Char) : ℕ :=
  cs.foldl (fun n c => n * 10 + (c.toNat - '0'.toNat)) 0

/-- Python `str.strip()` on character lists (whitespace at both ends). -/
def pyStrip (cs : List Char) : List Char :=
  (((cs.dropWhile Char.isWhitespace).reverse).dropWhile Char.isWhitespace).reverse

/-- Python `str.strip()` on strings. -/
def pyStripStr (s : String) : String :=
  String.mk (pyStrip s.toList)

/-- Parse a non-empty all-digit character list, `none` otherwise. -/
def natDigits? (cs : List Char) : Option ℕ :=
  if cs ≠ [] ∧ cs.all Char.isDigit then some (natOfDigits cs) else none

/-- Mantissa of a Python float literal: `
    digits`, `digits.digits`, `digits.` or `.digits` (at least one digit). -/
def pyMantissa? (cs : List Char) : Option ℚ :=
  match splitChar '.' cs with
  | [ip] => (natDigits? ip).map (fun n => (n : ℚ))
  | [ip, fp] =>
    if (ip ++ fp).all Char.isDigit ∧ ip ++ fp ≠ [] then
      some ((natOfDigits ip : ℚ) + (natOfDigits fp : ℚ) / 10 ^ fp.length)
    else none
  | _ => none

/-- Exponent part of a Python float literal: optionally signed digits. -/
def pyExp? (cs : List Char) : Option ℤ :=
  match cs with
  | '+' :: r => (natDigits? r).map (fun n => (n : ℤ))
  | '-' :: r => (natDigits? r).map (fun n => -(n : ℤ))
  | r => (natDigits? r).map (fun n => (n : ℤ))

/-- Optional leading sign of a Python float literal. -/
def pySign : List Char → ℚ × List Char
  | [] => (1, [])
  | c :: cs => if c = '+' then (1, cs) else if c = '-' then (-1, cs) else (1, c :: cs)

/-- Python `float(s)` on an already-stripped literal
    (`inf`/`nan` and digit-group underscores are not modelled; no call site
    in this repository produces them). Returns `none` where `float` raises
    `ValueError`. -/
def pyFloat? (cs0 : List Char) : Option ℚ :=
  let cs1 := cs0.map (fun c => if c = 'E' then 'e' else c)
  let sc := pySign cs1
  match splitChar 'e' sc.2 with
  | [m] => (pyMantissa? m).map (fun q => sc.1 * q)
  | [m, e] =>
    match pyMantissa? m, pyExp? e with
    | some q, some k => some (sc.1 * q * (10 : ℚ) ^ k)
    | _, _ => none
  | _ => none

example : pyFloat? "".toList = none := by decide
example : pyFloat? ".".toList = none := by decide

lemma splitChar_ne_nil (sep : Char) (xs : List Char) : splitChar sep xs ≠ [] := by
  cases xs with
  | nil => simp [splitChar]
  | cons c cs =>
    simp only [splitChar]
    cases splitChar sep cs with
    | nil => simp
    | cons g gs =>
      by_cases hc : c = sep <;> simp [hc]

lemma splitChar_not_mem {sep : Char} {xs : List Char} (h : sep ∉ xs) :
    splitChar sep xs = [xs] := by
  induction xs with
  | nil => rfl
  | cons c cs ih =>
    have hc : c ≠ sep := fun hc => h (hc ▸ List.mem_cons_self c cs)
    have ih' := ih (fun hm => h (List.mem_cons_of_mem c hm))
    simp [splitChar, ih', hc]

lemma splitChar_append_sep {sep : Char} {xs ys : List Char} (h : sep ∉ xs) :
    splitChar sep (xs ++ sep :: ys) = xs :: splitChar sep ys := by
  induction xs with
  | nil =>
    rw [List.nil_append]
    cases hs : splitChar sep ys with
    | nil => exact absurd hs (splitChar_ne_nil sep ys)
    | cons g gs => simp [splitChar, hs]
  | cons c cs ih =>
    have hc : c ≠ sep := fun hcc => h (hcc ▸ List.mem_cons_self c cs)
    have ih' := ih (fun hm => h (List.mem_cons_of_mem c hm))
    rw [List.cons_append]
    simp [splitChar, ih', hc]

lemma map_id_of {f : Char → Char} {xs : List Char} (h : ∀ c ∈ xs, f c = c) :
    xs.map f = xs := by
  induction xs with
  | nil => rfl
  | cons c cs ih =>
    simp only [List.map_cons, h c (List.mem_cons_self c cs),
      ih (fun d hd => h d (List.mem_cons_of_mem c hd))]

lemma digit_ne_special {c : Char} (h : c.isDigit = true) :
    c ≠ ',' ∧ c ≠ '.' ∧ c ≠ 'E' ∧ c ≠ 'e' ∧ c ≠ '+' ∧ c ≠ '-' := by
  refine ⟨?_, ?_, ?_, ?_, ?_, ?_⟩ <;> (rintro rfl; revert h; decide)

lemma pySign_eq_self {cs : List Char} (h : ∀ c ∈ cs, c ≠ '+' ∧ c ≠ '-') :
    pySign cs = (1, cs) := by
  cases cs with
  | nil => rfl
  | cons c t =>
    have hc := h c (List.mem_cons_self c t)
    simp [pySign, hc.1, hc.2]

/-- `pyFloat?` on a pure digit string. -/
lemma pyFloat_digits {a : List Char} (ha : ∀ c ∈ a, c.isDigit = true)
    (hne : a ≠ []) : pyFloat? a = some (natOfDigits a : ℚ) := by
  have hmap : a.map (fun c => if c = 'E' then 'e' else c) = a :=
    map_id_of (fun c hc => if_neg (digit_ne_special (ha c hc)).2.2.1)
  have hsign : pySign a = (1, a) :=
    pySign_eq_self (fun c hc => ⟨(digit_ne_special (ha c hc)).2.2.2.2.1,
      (digit_ne_special (ha c hc)).2.2.2.2.2⟩)
  have hse : splitChar 'e' a = [a] :=
    splitChar_not_mem (fun hm => (digit_ne_special (ha _ hm)).2.2.2.1 rfl)
  have hsd : splitChar '.' a = [a] :=
    splitChar_not_mem (fun hm => (digit_ne_special (ha _ hm)).2.1 rfl)
  have hdig : natDigits? a = some (natOfDigits a) := by
    unfold natDigits?
    rw [if_pos ⟨hne, List.all_eq_true.2 ha⟩]
  simp [pyFloat?, hmap, hsign, hse, pyMantissa?, hsd, hdig]

/-- `pyFloat?` on `digits.digits` with at least one digit overall. -/
lemma pyFloat_digits_dot {a b : List Char} (ha : ∀ c ∈ a, c.isDigit = true)
    (hb : ∀ c ∈ b, c.isDigit = true) (hne : a ++ b ≠ []) :
    pyFloat? (a ++ '.' :: b) =
      some ((natOfDigits a : ℚ) + (natOfDigits b : ℚ) / 10 ^ b.length) := by
  have hab : ∀ c ∈ a ++ '.' :: b, c ≠ 'E' := by
    intro c hc
    rcases List.mem_append.1 hc with h1 | h1
    · exact (digit_ne_special (ha c h1)).2.2.1
    · rcases List.mem_cons.1 h1 with rfl | h2
      · decide
      · exact (digit_ne_special (hb c h2)).2.2.1
  have hmap : (a ++ '.' :: b).map (fun c => if c = 'E' then 'e' else c) =
      a ++ '.' :: b :=
    map_id_of (fun c hc => if_neg (hab c hc))
  have hsign : pySign (a ++ '.' :: b) = (1, a ++ '.' :: b) := by
    refine pySign_eq_self ?_
    intro c hc
    rcases List.mem_append.1 hc with h1 | h1
    · exact ⟨(digit_ne_special (ha c h1)).2.2.2.2.1,
        (digit_ne_special (ha c h1)).2.2.2.2.2⟩
    · rcases List.mem_cons.1 h1 with rfl | h2
      · exact ⟨by decide, by decide⟩
      · exact ⟨(digit_ne_special (hb c h2)).2.2.2.2.1,
          (digit_ne_special (hb c h2)).2.2.2.2.2⟩
  have hse : splitChar 'e' (a ++ '.' :: b) = [a ++ '.' :: b] := by
    refine splitChar_not_mem ?_
    intro hm
    rcases List.mem_append.1 hm with h1 | h1
    · exact (digit_ne_special (ha _ h1)).2.2.2.1 rfl
    · rcases List.mem_cons.1 h1 with h2 | h2
      · exact absurd h2 (by decide)
      · exact (digit_ne_special (hb _ h2)).2.2.2.1 rfl
  have hsd : splitChar '.' (a ++ '.' :: b) = [a, b] := by
    have h1 : ('.' : Char) ∉ a :=
      fun hm => (digit_ne_special (ha _ hm)).2.1 rfl
    have h2 : ('.' : Char) ∉ b :=
      fun hm => (digit_ne_special (hb _ hm)).2.1 rfl
    rw [splitChar_append_sep h1, splitChar_not_mem h2]
  have hall : (a ++ b).all Char.isDigit = true := by
    rw [List.all_eq_true]
    intro c hc
    rcases List.mem_append.1 hc with h1 | h1
    · exact ha c h1
    · exact hb c h1
  have hm : pyMantissa? (a ++ '.' :: b) =
      some ((natOfDigits a : ℚ) + (natOfDigits b : ℚ) / 10 ^ b.length) := by
    unfold pyMantissa?
    rw [hsd]
    exact if_pos ⟨hall, hne⟩
  simp [pyFloat?, hmap, hsign, hse, hm]

/-! ## `src/data/processors.py` — `DataProcessor.extract_numeric_price` -/

namespace DataProcessor

/-- `re.sub(r'[^\d.,]', '', price_str)`: keep only digits, `.` and `,`. -/
def cleanPrice (s : String) : List Char :=
  s.toList.filter (fun c => c.isDigit || c = '.' || c = ',')

/-- `DataProcessor.extract_numeric_price` (processors.py:232-257):
    strip to digits/`.`/`,`, disambiguate the separators, then `float(...)`
    with `ValueError` mapped to `None`. -/
def extract_numeric_price (price_str : String) : Option ℚ :=
  if price_str = "" then none
  else
    let cleaned := cleanPrice price_str
    let cleaned :=
      if cleaned.contains ',' && cleaned.contains '.' then
        cleaned.filter (fun c => c != ',')
      else if cleaned.contains ',' then
        let parts := splitChar ',' cleaned
        if parts.length = 2 ∧ (parts.getD 1 []).length ≤ 2 then
          cleaned.map (fun c => if c = ',' then '.' else c)
        else
          cleaned.filter (fun c => c != ',')
      else cleaned
    pyFloat? cleaned

end DataProcessor

/-! ## `src/utils/helpers.py` -/

namespace Helpers

/-- `sanitize_text` (helpers.py:36-37): `re.sub(r'\s+', ' ', text.strip())`. -/
def sanitize_text (s : String) : String :=
  String.intercalate " " ((s.split Char.isWhitespace).filter (fun w => w ≠ ""))

/-- `sanitize_price` (helpers.py:28-33): keep digits and `.`, `float(...)`,
    any failure yields `0.0`. -/
def sanitize_price (s : String) : ℚ :=
  match pyFloat? (s.toList.filter (fun c => c.isDigit || c = '.')) with
  | some q => q
  | none => 0

end Helpers

/-! ## `src/data/models.py` -/

namespace Models

/-- `JobStatus` enumeration (models.py:13-19). -/
inductive JobStatus where
  | PENDING
  | RUNNING
  | COMPLETED
  | FAILED
  | CANCELLED
  deriving DecidableEq, Repr

/-- `Product` (models.py:30-60), restricted to the fields read by the
    modelled methods (`is_valid`). `name` is a required `str`; the optional
    fields default to `None`. -/
structure Product where
  name : String
  price : Option String := none
  link : Option String := none
  deriving DecidableEq, Repr

/-- `Product.is_valid` (models.py:135-137):
    `bool(self.name and (self.link or self.price))`. -/
def Product.is_valid (p : Product) : Bool :=
  (p.name != "") && (optTruthy p.link || optTruthy p.price)

/-- `ScrapingJob` (models.py:150-202), restricted to the fields touched by
    the lifecycle methods. `__post_init__` fills `created_at`, so fresh jobs
    carry an explicit creation timestamp. -/
structure ScrapingJob where
  search_term : String
  source : String
  status : JobStatus := JobStatus.PENDING
  created_at : Option String := none
  started_at : Option String := none
  completed_at : Option String := none
  error_message : Option String := none
  total_products : ℕ := 0
  successful_products : ℕ := 0
  failed_products : ℕ := 0
  deriving DecidableEq, Repr

/-- A freshly constructed job after `__post_init__` (models.py:181-184). -/
def mkScrapingJob (search_term source created : String) : ScrapingJob :=
  { search_term := search_term, source := source,
    created_at := some created }

/-- `ScrapingJob.start` (models.py:186-189); `datetime.utcnow().isoformat()`
    is passed in as `now`. -/
def ScrapingJob.start (now : String) (j : ScrapingJob) : ScrapingJob :=
  { j with status := JobStatus.RUNNING, started_at := some now }

/-- `ScrapingJob.complete` (models.py:191-196). -/
def ScrapingJob.complete (now : String) (products_count : ℕ)
    (j : ScrapingJob) : ScrapingJob :=
  { j with
    status := JobStatus.COMPLETED, completed_at := some now,
    successful_products := products_count, total_products := products_count }

/-- `ScrapingJob.fail` (models.py:198-202). -/
def ScrapingJob.fail (now error_message : String)
    (j : ScrapingJob) : ScrapingJob :=
  { j with
    status := JobStatus.FAILED, completed_at := some now,
    error_message := some error_message }

/-- The spec's per-state lifecycle invariant: the failure reason is set iff
    the job failed, and `completed_at` is set iff the job is terminal. -/
def lifecycleOk (j : ScrapingJob) : Prop :=
  (j.error_message ≠ none ↔ j.status = JobStatus.FAILED) ∧
  (j.completed_at ≠ none ↔
    (j.status = JobStatus.COMPLETED ∨ j.status = JobStatus.FAILED))

end Models

/-! ## `src/data/database.py` — the SQLite-backed store -/

namespace Database

/-- A Python value bound to the `price` key of a product dict: either a
    number or a string (`Database._parse_price` branches on this). -/
inductive PyPrice where
  | num (q : ℚ)
  | str (s : String)
  deriving DecidableEq, Repr

/-- A product dict as passed to `Database.insert_products`; `none` models
    both a missing key and an explicit `None` (`dict.get` merges the two). -/
structure PRecord where
  name : Option String := none
  price : Option PyPrice := none
  link : Option String := none
  image : Option String := none
  availability : Option String := none
  scrape_time : Option String := none
  search_term : Option String := none
  source : Option String := none
  deriving DecidableEq, Repr

/-- A row of the `products` table (database.py:30-44); `id` is implicit as
    the list position. `link` carries the `UNIQUE` constraint. -/
structure Row where
  name : Option String
  price : Option ℚ
  link : Option String
  image : Option String
  availability : Option String
  scrape_time : Option String
  search_term : Option String
  source : Option String
  job_id : Option ℕ
  deriving DecidableEq, Repr

/-- `Database._parse_price` (database.py:99-108): `None` passes through,
    numbers are converted, strings lose `$` and `,`, are stripped and fed to
    `float`; failures yield `None`. -/
def parse_price : Option PyPrice → Option ℚ
  | none => none
  | some (PyPrice.num q) => some q
  | some (PyPrice.str s) =>
    pyFloat? (pyStrip (s.toList.filter (fun c => c ≠ '$' ∧ c ≠ ',')))

/-- The tuple built for one product dict in `insert_products`
    (database.py:81-94). -/
def rowOf (p : PRecord) (job_id : Option ℕ) : Row :=
  { name := p.name, price := parse_price p.price, link := p.link,
    image := p.image, availability := p.availability,
    scrape_time := p.scrape_time, search_term := p.search_term,
    source := p.source, job_id := job_id }

/-- SQLite `INSERT OR IGNORE` against the `UNIQUE` column `link`: a row is
    dropped iff its link is non-NULL and already present (SQL `UNIQUE` does
    not constrain `NULL`s). -/
def insertRow (rows : List Row) (r : Row) : List Row :=
  match r.link with
  | none => rows ++ [r]
  | some l => if rows.any (fun r0 => r0.link == some l) then rows else rows ++ [r]

/-- `Database.insert_products` (database.py:74-97): `executemany` processes
    the tuples in order, each under `INSERT OR IGNORE`. -/
def insert_products (products : List PRecord) (job_id : Option ℕ)
    (rows : List Row) : List Row :=
  products.foldl (fun acc p => insertRow acc (rowOf p job_id)) rows

/-- The Python return value of `Database.insert_products`: the method body
    has no `return` statement, so every call returns `None`. -/
def insert_products_return (_products : List PRecord) (_job_id : Option ℕ)
    (_rows : List Row) : Option ℕ :=
  none

/-- A row of the `jobs` table (database.py:19-27). -/
structure JobRow where
  job_id : ℕ
  search_term : String
  status : String
  created_at : String
  completed_at : Option String
  deriving DecidableEq, Repr

/-- `Database.queue_job` (database.py:55-62): insert with status
    `'pending'` (the schema default) and return the assigned rowid. -/
def queue_job (jobs : List JobRow) (search_term now : String) :
    List JobRow × ℕ :=
  let jid := jobs.length + 1
  (jobs ++ [{ job_id := jid, search_term := search_term, status := "pending",
              created_at := now, completed_at := none }], jid)

/-- `Database.mark_job_complete` (database.py:64-72). -/
def mark_job_complete (jobs : List JobRow) (job_id : ℕ) (now : String) :
    List JobRow :=
  jobs.map (fun j =>
    if j.job_id = job_id then
      { j with status := "completed", completed_at := some now }
    else j)

/-- Status of the job with the given id, if present. -/
def jobStatus (jobs : List JobRow) (job_id : ℕ) : Option String :=
  (jobs.find? (fun j => j.job_id == job_id)).map JobRow.status

/-- `Database.get_products` (database.py:116-130): only a truthy
    `search_term` adds a `WHERE` clause; the `source` parameter is accepted
    but never used when building the query. -/
def get_products (_source : Option String) (search_term : Option String)
    (rows : List Row) : List Row :=
  match search_term with
  | some t => if t ≠ "" then rows.filter (fun r => r.search_term == some t) else rows
  | none => rows

/-- The two tables of one store (`scraped_data.db`). -/
structure DBState where
  products : List Row
  jobs : List JobRow
  deriving DecidableEq, Repr

end Database

/-! ## `src/scrapers/static_scraper.py` — static-document adapter -/

namespace StaticScraper

/-- The selector lookup results for one container: `select_one` misses are
    `none`; hits carry the relevant raw text/attribute. -/
structure StaticSel where
  name_text : Option String := none
  price_text : Option String := none
  link_href : Option String := none
  img_src : Option String := none
  avail_text : Option String := none

/-- The dict built by `extract_data_static` when non-empty. -/
structure StaticRecord where
  name : Option String
  price : Option ℚ
  link : Option String
  image : Option String
  availability : Option String
  scrape_time : String
  deriving DecidableEq, Repr

/-- `extract_data_static` (static_scraper.py:47-72). `join` stands for
    `urllib.parse.urljoin` (`build_absolute_url`); the guard at the end
    returns `{}` (here `none`) unless both name and link are truthy. -/
def extract_data_static (join : String → String → String) (base : String)
    (sel : StaticSel) (ts : String) : Option StaticRecord :=
  let name? := sel.name_text.map Helpers.sanitize_text
  let price? := sel.price_text.map Helpers.sanitize_price
  let link? := sel.link_href.map (join base)
  let image? := sel.img_src.map (join base)
  let avail? := sel.avail_text.map Helpers.sanitize_text
  let d : StaticRecord :=
    { name := name?, price := price?, link := link?, image := image?,
      availability := avail?, scrape_time := ts }
  if optTruthy name? && optTruthy link? then some d else none

end StaticScraper

/-! ## `src/scrapers/selenium_scraper.py` — interactive-browser adapter -/

namespace EbayScraper

/-- Selector results for one `li.s-item` element (text already `.strip()`ed
    by the source before any comparison, so raw texts are carried and
    trimmed here). -/
structure EbayRaw where
  name : Option String := none
  link : Option String := none
  price : Option String := none
  availability : Option String := none

/-- The dict produced by `_extract_item_data` when it does not return
    `None`. -/
structure EbayItem where
  name : String
  price : Option String
  link : String
  page : ℕ
  availability : String
  deriving DecidableEq, Repr

/-- `EbayScraper._extract_item_data` (selenium_scraper.py:57-96): drop the
    item unless it has a truthy name outside the banned placeholder titles
    and a truthy link; availability defaults to `"Unknown"`. -/
def extract_item_data (raw : EbayRaw) (page_num : ℕ) : Option EbayItem :=
  match raw.name with
  | none => none
  | some n0 =>
    let n := pyStripStr n0
    if n = "" ∨ n = "New Listing" ∨ n = "Shop on eBay" then none
    else
      match raw.link with
      | none => none
      | some l =>
        if l = "" then none
        else some { name := n, price := raw.price.map pyStripStr, link := l,
                    page := page_num,
                    availability := (raw.availability.map pyStripStr).getD "Unknown" }

/-- Outcome of one page in a browser run: either the wait for
    `#srp-river-results li.s-item` timed out, or the page loaded with the
    given item elements. -/
inductive PageLoad where
  | timeout
  | loaded (items : List EbayRaw)

/-- `EbayScraper._scrape_page` (selenium_scraper.py:98-143): a
    `TimeoutException` is caught and yields `[]`; otherwise each item
    element goes through `_extract_item_data`. -/
def scrape_page (p : PageLoad) (page_num : ℕ) : List EbayItem :=
  match p with
  | PageLoad.timeout => []
  | PageLoad.loaded raws => raws.filterMap (fun it => extract_item_data it page_num)

/-- The page loop of `EbayScraper.scrape` (selenium_scraper.py:145-172),
    pages numbered from `n`. -/
def scrapeAux : List PageLoad → ℕ → List EbayItem
  | [], _ => []
  | p :: rest, n => scrape_page p n ++ scrapeAux rest (n + 1)

/-- `EbayScraper.scrape`: pages `1..max_pages` in order, results
    concatenated. -/
def scrape (pages : List PageLoad) : List EbayItem :=
  scrapeAux pages 1

/-- The dict handed to `insert_products` for one eBay item (main.py:69-73
    sets `search_term` and `source` before the insert; the item dict carries
    no `image` or `scrape_time` key). -/
def record_for_db (it : EbayItem) (term : String) : Database.PRecord :=
  { name := some it.name, price := it.price.map Database.PyPrice.str,
    link := some it.link, availability := some it.availability,
    search_term := some term, source := some "eBay" }

/-- The per-term persistence step of the eBay flow (main.py:67-74 /
    commands.py:175-177): queue a job, insert the scraped items, mark the
    job complete. -/
def job_flow (pages : List PageLoad) (term now : String)
    (db : Database.DBState) : Database.DBState × ℕ :=
  let results := scrape pages
  let qj := Database.queue_job db.jobs term now
  let rows := Database.insert_products (results.map (fun it => record_for_db it term))
    (some qj.2) db.products
  let jobs2 := Database.mark_job_complete qj.1 qj.2 now
  ({ products := rows, jobs := jobs2 }, qj.2)

end EbayScraper

/-! ## `src/scrapers/scrapy_crawler/` — managed-crawl adapter -/

namespace AmazonSpider

/-- The curated blocking indicators of `AmazonAntiBlockMiddleware`
    (amazon_spider.py:82-85). -/
def blocking_patterns : List String :=
  ["captcha", "robot", "automated", "blocked", "unusual traffic",
   "request blocked", "access denied", "temporarily blocked"]

/-- Whether a response body trips the block detector:
    `any(pattern in response.text.lower() for pattern in blocking_patterns)`. -/
def isBlockedBody (body : String) : Bool :=
  blocking_patterns.any (fun p => hasSub (body.toList.map Char.toLower) p.toList)

/-- `AmazonAntiBlockMiddleware.process_response` (amazon_spider.py:80-97):
    the response is always returned unchanged; the only effect of a match is
    a logged warning, reported here as the second component. -/
def process_response (body : String) : String × Bool :=
  (body, isBlockedBody body)

/-- An item dict yielded by
    `AmazonProductSpider.extract_single_product_enhanced`
    (amazon_spider.py:368-377). -/
structure AmazonItem where
  name : String
  price : Option ℚ
  link : Option String
  search_term : String
  scrape_time : String
  availability : String
  rating : Option String
  source : String
  deriving DecidableEq, Repr

/-- `AmazonProductSpider.parse_price` (amazon_spider.py:394-407): keep
    digits and dots, `float(...)`, errors yield `None`. -/
def parse_price (price_str : String) : Option ℚ :=
  if price_str = "" then none
  else
    let clean := price_str.toList.filter (fun c => c.isDigit || c = '.')
    if clean = [] then none else pyFloat? clean

/-- `extract_single_product_enhanced` (amazon_spider.py:316-384), taking the
    fallback-selector results (`extract_with_fallbacks` yields a stripped
    non-empty string or `None`) as inputs. Only a truthy title is required;
    price and link may be absent. -/
def extract_single_product_enhanced (title price_text link rating : Option String)
    (search_term ts : String) : Option AmazonItem :=
  match title with
  | none => none
  | some t =>
    if pyStripStr t = "" then none
    else some
      { name := pyStripStr t,
        price := match price_text with
          | none => none
          | some s => if s = "" then none else parse_price s,
        link := match link with
          | none => none
          | some l =>
            if l ≠ "" ∧ ¬ l.startsWith "http" then
              some ("https://www.amazon.com" ++ l)
            else some l,
        search_term := search_term, scrape_time := ts,
        availability := "In Stock",
        rating := rating.map (fun r => if r = "" then r else pyStripStr r),
        source := "Amazon" }

/-- One crawled response: its body together with the items the spider's
    `parse` extracts from it. -/
structure CrawlResponse where
  body : String
  items : List AmazonItem

/-- The downloader middleware applied to a response: the anti-block
    middleware returns the response unchanged (amazon_spider.py:97), so the
    spider parses every response. -/
def deliver (r : CrawlResponse) : CrawlResponse :=
  { r with body := (process_response r.body).1 }

/-- Items accumulated by `CollectorPipeline` over a crawl: every yielded
    item of every delivered response, in order. -/
def collectItems (rs : List CrawlResponse) : List AmazonItem :=
  ((rs.map deliver).map CrawlResponse.items).flatten

end AmazonSpider

namespace AmazonRunner

open AmazonSpider Database

/-- The dict built for the store in `AmazonScrapyRunner.run_scraper`
    (amazon_scraper.py:80-91); `item.get('link', '')` returns the stored
    value even when it is `None`, since the key is always present. -/
def products_for_db (it : AmazonItem) : PRecord :=
  { name := some it.name, price := it.price.map PyPrice.num, link := it.link,
    image := some "", availability := some it.availability,
    scrape_time := some it.scrape_time, search_term := some it.search_term,
    source := some it.source }

/-- `AmazonScrapyRunner.run_scraper` (amazon_scraper.py:28-115) after the
    crawl: queue a job; if any items were collected, insert them and mark
    the job completed; otherwise only log (`_handle_blocking_scenario`) and
    return `[]`. No branch ever marks a job failed. -/
def run_scraper (scraped_items : List AmazonItem) (search_terms : List String)
    (now : String) (db : DBState) : DBState × ℕ × List AmazonItem :=
  let qj := queue_job db.jobs (String.intercalate ", " search_terms) now
  if scraped_items.isEmpty then
    ({ products := db.products, jobs := qj.1 }, qj.2, [])
  else
    let rows := insert_products (scraped_items.map products_for_db)
      (some qj.2) db.products
    let jobs2 := mark_job_complete qj.1 qj.2 now
    ({ products := rows, jobs := jobs2 }, qj.2, scraped_items)

end AmazonRunner

/-! ## Helper lemmas about the store -/

/-- Rows whose identity link is NULL. -/
def nullLinkCount (rows : List Database.Row) : ℕ :=
  rows.countP (fun r => r.link == none)

/-- Rows carrying the given identity link. -/
def filterLink (rows : List Database.Row) (l : String) : List Database.Row :=
  rows.filter (fun r => r.link == some l)

lemma insertRow_nullLinkCount (rows : List Database.Row) (r : Database.Row) :
    nullLinkCount (Database.insertRow rows r) =
      nullLinkCount rows + (if r.link == none then 1 else 0) := by
  unfold Database.insertRow nullLinkCount
  cases hl : r.link with
  | none => simp [List.countP_append, List.countP_cons, hl]
  | some l =>
    by_cases hany : rows.any (fun r0 => r0.link == some l) = true
    · simp [hany, hl]
    · simp [hany, List.countP_append, List.countP_cons, hl]

lemma insert_products_nullLinkCount (ps : List Database.PRecord)
    (j : Option ℕ) (rows : List Database.Row) :
    nullLinkCount (Database.insert_products ps j rows) =
      nullLinkCount rows + ps.countP (fun p => p.link == none) := by
  induction ps generalizing rows with
  | nil => simp [Database.insert_products, nullLinkCount]
  | cons p t ih =>
    have hstep : Database.insert_products (p :: t) j rows =
        Database.insert_products t j
          (Database.insertRow rows (Database.rowOf p j)) := rfl
    rw [hstep, ih, insertRow_nullLinkCount, List.countP_cons]
    have hlink : (Database.rowOf p j).link = p.link := rfl
    rw [hlink]
    omega

lemma insertRow_length_le (rows : List Database.Row) (r : Database.Row) :
    (Database.insertRow rows r).length ≤ rows.length + 1 := by
  unfold Database.insertRow
  cases r.link with
  | none => simp
  | some l =>
    by_cases hany : rows.any (fun r0 => r0.link == some l) = true
    · simp [hany]
    · simp [hany]

lemma insert_products_length_le (ps : List Database.PRecord)
    (j : Option ℕ) (rows : List Database.Row) :
    (Database.insert_products ps j rows).length ≤ rows.length + ps.length := by
  induction ps generalizing rows with
  | nil => simp [Database.insert_products]
  | cons p t ih =>
    have hstep : Database.insert_products (p :: t) j rows =
        Database.insert_products t j
          (Database.insertRow rows (Database.rowOf p j)) := rfl
    rw [hstep]
    calc (Database.insert_products t j
          (Database.insertRow rows (Database.rowOf p j))).length
        ≤ (Database.insertRow rows (Database.rowOf p j)).length + t.length := ih _
      _ ≤ rows.length + 1 + t.length :=
        Nat.add_le_add_right (insertRow_length_le rows _) _
      _ = rows.length + (p :: t).length := by simp [List.length_cons]; omega

/-! ## Shared concrete records for witnesses and counterexamples -/

/-- A concrete record with a link, as scraped. -/
def pA : Database.PRecord :=
  { name := some "Widget A", link := some "https://x/1" }

/-- A different record colliding with `pA` on the identity link. -/
def pB : Database.PRecord :=
  { name := some "Widget B", link := some "https://x/1" }

/-! ## Claim theorems -/

/-- C5: `extract_numeric_price` maps `"$1,299.00"` to `1299.00`, `"£25.50"`
    to `25.50`, and the unparseable `"n/a"` to `None` (the `ValueError` is
    caught, no exception escapes and no default number is returned). -/
theorem C5_price_normalization_values :
    DataProcessor.extract_numeric_price "$1,299.00" = some 1299 ∧
    DataProcessor.extract_numeric_price "£25.50" = some (51 / 2) ∧
    DataProcessor.extract_numeric_price "n/a" = none := by
  refine ⟨?_, ?_, by decide⟩
  · have h : DataProcessor.extract_numeric_price "$1,299.00" =
        pyFloat? (['1', '2', '9', '9'] ++ '.' :: ['0', '0']) := rfl
    rw [h, pyFloat_digits_dot (by decide) (by decide) (by decide)]
    rw [show natOfDigits ['1', '2', '9', '9'] = 1299 from by decide,
      show natOfDigits ['0', '0'] = 0 from by decide]
    norm_num
  · have h : DataProcessor.extract_numeric_price "£25.50" =
        pyFloat? (['2', '5'] ++ '.' :: ['5', '0']) := rfl
    rw [h, pyFloat_digits_dot (by decide) (by decide) (by decide)]
    rw [show natOfDigits ['2', '5'] = 25 from by decide,
      show natOfDigits ['5', '0'] = 50 from by decide]
    norm_num

/-- C10: the `source` parameter of `get_products` is ignored — for every
    store state and every source value the result equals the unfiltered
    query (with the same `search_term`); with no `search_term`, every row is
    returned regardless of `source`. -/
theorem C10_source_filter_ignored :
    (∀ (src term : Option String) (rows : List Database.Row),
      Database.get_products src term rows = Database.get_products none term rows) ∧
    (∀ (src : Option String) (rows : List Database.Row),
      Database.get_products src none rows = rows) :=
  ⟨fun _ _ _ => rfl, fun _ _ => rfl⟩

/-- C9: deduplication applies only to non-NULL identity links — a record
    with a NULL link is always appended by `insert_products` (never dropped
    as a duplicate), so the number of NULL-link rows in the store grows by
    exactly the number of NULL-link records in every batch. -/
theorem C9_null_links_never_deduplicated :
    (∀ (ps : List Database.PRecord) (j : Option ℕ) (rows : List Database.Row),
      nullLinkCount (Database.insert_products ps j rows) =
        nullLinkCount rows + ps.countP (fun p => p.link == none)) ∧
    (∀ (p : Database.PRecord) (j : Option ℕ) (rows : List Database.Row),
      p.link = none →
      Database.insert_products [p] j rows = rows ++ [Database.rowOf p j]) := by
  constructor
  · exact insert_products_nullLinkCount
  · intro p j rows hl
    have h : Database.insert_products [p] j rows =
        Database.insertRow rows (Database.rowOf p j) := rfl
    rw [h]
    unfold Database.insertRow
    have hlink : (Database.rowOf p j).link = p.link := rfl
    rw [hlink, hl]

/-- C9 witness: two NULL-link records inserted into a store already holding
    a NULL-link row all coexist (three NULL-link rows, none discarded). -/
theorem C9_witness :
    ({ link := none, name := some "N" } : Database.PRecord).link = none ∧
    Database.insert_products [{ link := none, name := some "N" }] (some 2)
        [Database.rowOf { link := none, name := some "M" } (some 1)] =
      [Database.rowOf { link := none, name := some "M" } (some 1)] ++
        [Database.rowOf { link := none, name := some "N" } (some 2)] ∧
    nullLinkCount (Database.insert_products
        [{ link := none, name := some "N" }, { link := none, name := some "M" }]
        (some 2) [Database.rowOf { link := none, name := some "M" } (some 1)]) =
      nullLinkCount [Database.rowOf { link := none, name := some "M" } (some 1)] +
        ([{ link := none, name := some "N" },
          { link := none, name := some "M" }] : List Database.PRecord).countP
          (fun p => p.link == none) :=
  ⟨rfl,
   C9_null_links_never_deduplicated.2 { link := none, name := some "N" } (some 2)
     [Database.rowOf { link := none, name := some "M" } (some 1)] rfl,
   C9_null_links_never_deduplicated.1
     [{ link := none, name := some "N" }, { link := none, name := some "M" }]
     (some 2) [Database.rowOf { link := none, name := some "M" } (some 1)]⟩

/-- C2 counterexample: the lifecycle methods carry no guards, so calling
    `fail` and then `complete` on a fresh job transitions out of the
    terminal `FAILED` status and leaves a `COMPLETED` job whose failure
    reason is still set — refuting "no transition out of a terminal status"
    and "failure reason is set iff status is failed" as stated. -/
theorem C2_counterexample :
    (Models.ScrapingJob.complete "t2" 0
        (Models.ScrapingJob.fail "t1" "boom"
          (Models.mkScrapingJob "laptop" "Amazon" "t0"))).status =
      Models.JobStatus.COMPLETED ∧
    (Models.ScrapingJob.fail "t1" "boom"
        (Models.mkScrapingJob "laptop" "Amazon" "t0")).status =
      Models.JobStatus.FAILED ∧
    (Models.ScrapingJob.complete "t2" 0
        (Models.ScrapingJob.fail "t1" "boom"
          (Models.mkScrapingJob "laptop" "Amazon" "t0"))).error_message =
      some "boom" ∧
    ¬ Models.lifecycleOk
        (Models.ScrapingJob.complete "t2" 0
          (Models.ScrapingJob.fail "t1" "boom"
            (Models.mkScrapingJob "laptop" "Amazon" "t0"))) := by
  refine ⟨rfl, rfl, rfl, ?_⟩
  intro h
  exact absurd (h.1.mp (by simp [Models.ScrapingJob.complete,
    Models.ScrapingJob.fail, Models.mkScrapingJob])) (by simp
    [Models.ScrapingJob.complete, Models.ScrapingJob.fail, Models.mkScrapingJob])

/-- C2 amended: when the lifecycle methods are applied in their intended
    order — `start` on a fresh job, then exactly one of `complete`/`fail` —
    the status sequence follows pending→running→{completed,failed},
    `started_at`/`completed_at` are each set exactly once, and the failure
    reason is set iff the status is failed (the methods themselves do not
    guard against out-of-order calls). -/
theorem C2_lifecycle_canonical_order :
    ∀ (created t1 t2 msg term src : String) (n : ℕ),
    (Models.mkScrapingJob term src created).status = Models.JobStatus.PENDING ∧
    (Models.ScrapingJob.start t1 (Models.mkScrapingJob term src created)).status =
      Models.JobStatus.RUNNING ∧
    (Models.ScrapingJob.complete t2 n
      (Models.ScrapingJob.start t1 (Models.mkScrapingJob term src created))).status =
      Models.JobStatus.COMPLETED ∧
    (Models.ScrapingJob.fail t2 msg
      (Models.ScrapingJob.start t1 (Models.mkScrapingJob term src created))).status =
      Models.JobStatus.FAILED ∧
    Models.lifecycleOk (Models.mkScrapingJob term src created) ∧
    Models.lifecycleOk
      (Models.ScrapingJob.start t1 (Models.mkScrapingJob term src created)) ∧
    Models.lifecycleOk (Models.ScrapingJob.complete t2 n
      (Models.ScrapingJob.start t1 (Models.mkScrapingJob term src created))) ∧
    Models.lifecycleOk (Models.ScrapingJob.fail t2 msg
      (Models.ScrapingJob.start t1 (Models.mkScrapingJob term src created))) ∧
    (Models.mkScrapingJob term src created).started_at = none ∧
    (Models.ScrapingJob.start t1 (Models.mkScrapingJob term src created)).started_at =
      some t1 ∧
    (Models.ScrapingJob.complete t2 n
      (Models.ScrapingJob.start t1 (Models.mkScrapingJob term src created))).started_at =
      some t1 ∧
    (Models.ScrapingJob.fail t2 msg
      (Models.ScrapingJob.start t1 (Models.mkScrapingJob term src created))).started_at =
      some t1 ∧
    (Models.ScrapingJob.start t1 (Models.mkScrapingJob term src created)).completed_at =
      none ∧
    (Models.ScrapingJob.complete t2 n
      (Models.ScrapingJob.start t1 (Models.mkScrapingJob term src created))).completed_at =
      some t2 ∧
    (Models.ScrapingJob.fail t2 msg
      (Models.ScrapingJob.start t1 (Models.mkScrapingJob term src created))).completed_at =
      some t2 ∧
    (Models.ScrapingJob.complete t2 n
      (Models.ScrapingJob.start t1 (Models.mkScrapingJob term src created))).error_message =
      none ∧
    (Models.ScrapingJob.fail t2 msg
      (Models.ScrapingJob.start t1 (Models.mkScrapingJob term src created))).error_message =
      some msg := by
  intro created t1 t2 msg term src n
  refine ⟨rfl, rfl, rfl, rfl, ?_, ?_, ?_, ?_, rfl, rfl, rfl, rfl, rfl, rfl,
    rfl, rfl, rfl⟩ <;>
    simp [Models.lifecycleOk, Models.mkScrapingJob, Models.ScrapingJob.start,
      Models.ScrapingJob.complete, Models.ScrapingJob.fail]

/-- C7 counterexample: `insert_products` has no `return` statement — at a
    concrete input where only 1 of 2 records is actually inserted (shared
    link), the call returns `None`, not the count `1`. -/
theorem C7_counterexample :
    Database.insert_products_return [pA, pB] (some 1) [] = none ∧
    (Database.insert_products [pA, pB] (some 1) []).length = 1 ∧
    Database.insert_products_return [pA, pB] (some 1) [] ≠
      some ((Database.insert_products [pA, pB] (some 1) []).length -
        ([] : List Database.Row).length) := by
  refine ⟨rfl, rfl, ?_⟩
  intro h
  exact Option.noConfusion h

/-- C7 amended: `insert_products` performs the at-most-once insert but
    returns no value (Python `None`); the number of rows actually added is
    at most `len(records)` and can be strictly smaller when links collide,
    but it is never returned to the caller. -/
theorem C7_insert_return_amended :
    ∀ (ps : List Database.PRecord) (j : Option ℕ) (rows : List Database.Row),
      Database.insert_products_return ps j rows = none ∧
      (Database.insert_products ps j rows).length ≤ rows.length + ps.length :=
  fun ps j rows => ⟨rfl, insert_products_length_le ps j rows⟩

lemma any_link_eq_false {rows : List Database.Row} {l : String}
    (h : ∀ r ∈ rows, r.link ≠ some l) :
    rows.any (fun r0 => r0.link == some l) = false := by
  rw [List.any_eq_false]
  intro r hr
  simp [h r hr]

lemma filterLink_eq_nil {rows : List Database.Row} {l : String}
    (h : ∀ r ∈ rows, r.link ≠ some l) : filterLink rows l = [] := by
  unfold filterLink
  rw [List.filter_eq_nil_iff]
  intro r hr
  simp [h r hr]

lemma insertRow_fresh_link {rows : List Database.Row} {r : Database.Row}
    {l : String} (hrl : r.link = some l) (h : ∀ r0 ∈ rows, r0.link ≠ some l) :
    Database.insertRow rows r = rows ++ [r] := by
  unfold Database.insertRow
  rw [hrl]
  simp [any_link_eq_false h]

lemma insertRow_dup_link {rows : List Database.Row} {r0 r : Database.Row}
    {l : String} (hmem : r0 ∈ rows) (h0 : r0.link = some l)
    (hrl : r.link = some l) : Database.insertRow rows r = rows := by
  unfold Database.insertRow
  rw [hrl]
  have hany : rows.any (fun x => x.link == some l) = true :=
    List.any_eq_true.2 ⟨r0, hmem, by simp [h0]⟩
  simp [hany]

/-- C1: at-most-once deduplicated insert — starting from any store state
    with no row for link `l`, inserting two records that both carry link `l`
    (within one `insert_products` call or across two calls) leaves exactly
    one row for `l`, namely the row of the first record; the collider is
    silently discarded and nothing is overwritten. -/
theorem C1_dedup_insert_first_wins :
    ∀ (rows : List Database.Row) (p1 p2 : Database.PRecord)
      (j1 j2 : Option ℕ) (l : String),
      p1.link = some l → p2.link = some l →
      (∀ r ∈ rows, r.link ≠ some l) →
      filterLink (Database.insert_products [p1, p2] j1 rows) l =
        [Database.rowOf p1 j1] ∧
      filterLink (Database.insert_products [p2] j2
          (Database.insert_products [p1] j1 rows)) l =
        [Database.rowOf p1 j1] := by
  intro rows p1 p2 j1 j2 l h1 h2 hfresh
  have hr1 : (Database.rowOf p1 j1).link = some l := h1
  have hr2a : (Database.rowOf p2 j1).link = some l := h2
  have hr2b : (Database.rowOf p2 j2).link = some l := h2
  have hins1 : Database.insertRow rows (Database.rowOf p1 j1) =
      rows ++ [Database.rowOf p1 j1] := insertRow_fresh_link hr1 hfresh
  have hmem1 : Database.rowOf p1 j1 ∈ rows ++ [Database.rowOf p1 j1] := by simp
  have hfilter : filterLink (rows ++ [Database.rowOf p1 j1]) l =
      [Database.rowOf p1 j1] := by
    unfold filterLink
    rw [List.filter_append]
    have h0 : filterLink rows l = [] := filterLink_eq_nil hfresh
    unfold filterLink at h0
    rw [h0, List.nil_append]
    simp [hr1]
  constructor
  · have hstep : Database.insert_products [p1, p2] j1 rows =
        Database.insertRow (Database.insertRow rows (Database.rowOf p1 j1))
          (Database.rowOf p2 j1) := rfl
    rw [hstep, hins1, insertRow_dup_link hmem1 hr1 hr2a]
    exact hfilter
  · have hstep1 : Database.insert_products [p1] j1 rows =
        Database.insertRow rows (Database.rowOf p1 j1) := rfl
    have hstep2 : Database.insert_products [p2] j2
        (rows ++ [Database.rowOf p1 j1]) =
        Database.insertRow (rows ++ [Database.rowOf p1 j1])
          (Database.rowOf p2 j2) := rfl
    rw [hstep1, hins1, hstep2, insertRow_dup_link hmem1 hr1 hr2b]
    exact hfilter

/-- C1 witness: on an empty store, inserting `pA` then the colliding `pB`
    (in one call) leaves exactly the row of `pA` for their shared link. -/
theorem C1_witness :
    filterLink (Database.insert_products [pA, pB] (some 1) []) "https://x/1" =
      [Database.rowOf pA (some 1)] :=
  (C1_dedup_insert_first_wins [] pA pB (some 1) (some 1) "https://x/1"
    rfl rfl (by simp)).1

lemma jobStatus_append_skip {jobs : List Database.JobRow} {jid : ℕ}
    (h : ∀ j ∈ jobs, j.job_id ≠ jid) (rest : List Database.JobRow) :
    Database.jobStatus (jobs ++ rest) jid = Database.jobStatus rest jid := by
  induction jobs with
  | nil => rfl
  | cons j t ih =>
    have hj : (j.job_id == jid) = false := by
      simp [h j (List.mem_cons_self j t)]
    have ih' := ih (fun x hx => h x (List.mem_cons_of_mem j hx))
    unfold Database.jobStatus at ih' ⊢
    rw [List.cons_append, List.find?_cons, hj]
    exact ih'

lemma mark_preserves_job_id (jid : ℕ) (now : String) (j : Database.JobRow) :
    ((if j.job_id = jid then
        { j with status := "completed", completed_at := some now }
      else j) : Database.JobRow).job_id = j.job_id := by
  split <;> rfl

lemma jobStatus_queue_then_complete {jobs : List Database.JobRow}
    {term now now2 : String}
    (h : ∀ j ∈ jobs, j.job_id ≠ jobs.length + 1) :
    Database.jobStatus
      (Database.mark_job_complete (Database.queue_job jobs term now).1
        (Database.queue_job jobs term now).2 now2)
      (Database.queue_job jobs term now).2 = some "completed" := by
  unfold Database.queue_job Database.mark_job_complete
  rw [List.map_append]
  have hskip : ∀ x ∈ jobs.map (fun j =>
      if j.job_id = jobs.length + 1 then
        { j with status := "completed", completed_at := some now2 }
      else j), x.job_id ≠ jobs.length + 1 := by
    intro x hx
    rcases List.mem_map.1 hx with ⟨j, hj, rfl⟩
    rw [mark_preserves_job_id]
    exact h j hj
  rw [jobStatus_append_skip hskip]
  simp [Database.jobStatus, List.find?]

lemma jobStatus_queue_pending {jobs : List Database.JobRow}
    {term now : String}
    (h : ∀ j ∈ jobs, j.job_id ≠ jobs.length + 1) :
    Database.jobStatus (Database.queue_job jobs term now).1
      (Database.queue_job jobs term now).2 = some "pending" := by
  unfold Database.queue_job
  rw [jobStatus_append_skip h]
  simp [Database.jobStatus, List.find?]

lemma scrapeAux_append (xs ys : List EbayScraper.PageLoad) (n : ℕ) :
    EbayScraper.scrapeAux (xs ++ ys) n =
      EbayScraper.scrapeAux xs n ++ EbayScraper.scrapeAux ys (n + xs.length) := by
  induction xs generalizing n with
  | nil => simp [EbayScraper.scrapeAux]
  | cons p t ih =>
    have harg : n + 1 + t.length = n + (t.length + 1) := by omega
    simp only [List.cons_append, EbayScraper.scrapeAux, List.append_eq,
      ih (n + 1), harg, List.length_cons, List.append_assoc]

/-- C8: the browser-adapter timeout is page-scoped — a timed-out page
    yields exactly zero records, every page after it is still scraped
    (its results appear in the run's output), and the surrounding flow
    still queues the job, inserts what was scraped and marks the job
    completed (never failed). -/
theorem C8_timeout_page_scoped :
    ∀ (pre post : List EbayScraper.PageLoad) (term now : String)
      (db : Database.DBState),
      (∀ j ∈ db.jobs, j.job_id ≠ db.jobs.length + 1) →
      EbayScraper.scrape_page EbayScraper.PageLoad.timeout (pre.length + 1) = [] ∧
      EbayScraper.scrape (pre ++ EbayScraper.PageLoad.timeout :: post) =
        EbayScraper.scrapeAux pre 1 ++
          EbayScraper.scrapeAux post (pre.length + 2) ∧
      Database.jobStatus
        (EbayScraper.job_flow (pre ++ EbayScraper.PageLoad.timeout :: post)
          term now db).1.jobs
        (EbayScraper.job_flow (pre ++ EbayScraper.PageLoad.timeout :: post)
          term now db).2 = some "completed" := by
  intro pre post term now db hfresh
  refine ⟨rfl, ?_, ?_⟩
  · unfold EbayScraper.scrape
    rw [scrapeAux_append]
    have hstep : EbayScraper.scrapeAux
        (EbayScraper.PageLoad.timeout :: post) (1 + pre.length) =
        EbayScraper.scrape_page EbayScraper.PageLoad.timeout (1 + pre.length) ++
          EbayScraper.scrapeAux post (1 + pre.length + 1) := rfl
    rw [hstep]
    have h0 : EbayScraper.scrape_page EbayScraper.PageLoad.timeout
        (1 + pre.length) = [] := rfl
    rw [h0, List.nil_append]
    have harg : 1 + pre.length + 1 = pre.length + 2 := by omega
    rw [harg]
  · unfold EbayScraper.job_flow
    exact jobStatus_queue_then_complete hfresh

/-- A concrete eBay item element for the C8 witness run. -/
def ebayRawA : EbayScraper.EbayRaw :=
  { name := some "iPhone 15", link := some "https://ebay/1" }

/-- A second concrete eBay item element. -/
def ebayRawB : EbayScraper.EbayRaw :=
  { name := some "iPhone 14", link := some "https://ebay/2" }

/-- C8 witness: a three-page run whose second page times out on an empty
    store still ends with the job completed. -/
theorem C8_witness :
    Database.jobStatus
      (EbayScraper.job_flow
        ([EbayScraper.PageLoad.loaded [ebayRawA]] ++
          EbayScraper.PageLoad.timeout ::
            [EbayScraper.PageLoad.loaded [ebayRawB]])
        "iphone" "t1" ⟨[], []⟩).1.jobs
      (EbayScraper.job_flow
        ([EbayScraper.PageLoad.loaded [ebayRawA]] ++
          EbayScraper.PageLoad.timeout ::
            [EbayScraper.PageLoad.loaded [ebayRawB]])
        "iphone" "t1" ⟨[], []⟩).2 = some "completed" :=
  (C8_timeout_page_scoped [EbayScraper.PageLoad.loaded [ebayRawA]]
    [EbayScraper.PageLoad.loaded [ebayRawB]]
    "iphone" "t1" ⟨[], []⟩ (by simp)).2.2

/-- A concrete item collected from a response that precedes the block. -/
def sampleItem : AmazonSpider.AmazonItem :=
  { name := "USB-C Cable", price := none, link := some "https://www.amazon.com/dp/1",
    search_term := "laptop", scrape_time := "t0", availability := "In Stock",
    rating := none, source := "Amazon" }

/-- A response body carrying a blocking indicator. -/
def blockedBody : String :=
  "Sorry, please type the characters you see in this CAPTCHA image"

/-- C3 counterexample: a managed-crawl run in which one response body
    contains "captcha" does NOT end with a failed job — the anti-block
    middleware only logs and passes the response through, and the runner
    marks the job completed (there is no failure path and the jobs table has
    no failure-reason column), so the claimed status `failed`/reason
    `blocked` never materializes. -/
theorem C3_counterexample :
    AmazonSpider.isBlockedBody blockedBody = true ∧
    AmazonSpider.collectItems
      [⟨"<html>search results</html>", [sampleItem]⟩, ⟨blockedBody, []⟩] =
      [sampleItem] ∧
    Database.jobStatus
      (AmazonRunner.run_scraper
        (AmazonSpider.collectItems
          [⟨"<html>search results</html>", [sampleItem]⟩, ⟨blockedBody, []⟩])
        ["laptop"] "t1" ⟨[], []⟩).1.jobs
      (AmazonRunner.run_scraper
        (AmazonSpider.collectItems
          [⟨"<html>search results</html>", [sampleItem]⟩, ⟨blockedBody, []⟩])
        ["laptop"] "t1" ⟨[], []⟩).2.1 = some "completed" ∧
    Database.jobStatus
      (AmazonRunner.run_scraper
        (AmazonSpider.collectItems
          [⟨"<html>search results</html>", [sampleItem]⟩, ⟨blockedBody, []⟩])
        ["laptop"] "t1" ⟨[], []⟩).1.jobs
      (AmazonRunner.run_scraper
        (AmazonSpider.collectItems
          [⟨"<html>search results</html>", [sampleItem]⟩, ⟨blockedBody, []⟩])
        ["laptop"] "t1" ⟨[], []⟩).2.1 ≠ some "failed" ∧
    (AmazonRunner.run_scraper
      (AmazonSpider.collectItems
        [⟨"<html>search results</html>", [sampleItem]⟩, ⟨blockedBody, []⟩])
      ["laptop"] "t1" ⟨[], []⟩).1.products ≠ [] := by
  have hstat : Database.jobStatus
      (AmazonRunner.run_scraper
        (AmazonSpider.collectItems
          [⟨"<html>search results</html>", [sampleItem]⟩, ⟨blockedBody, []⟩])
        ["laptop"] "t1" ⟨[], []⟩).1.jobs
      (AmazonRunner.run_scraper
        (AmazonSpider.collectItems
          [⟨"<html>search results</html>", [sampleItem]⟩, ⟨blockedBody, []⟩])
        ["laptop"] "t1" ⟨[], []⟩).2.1 = some "completed" := rfl
  refine ⟨by decide, rfl, hstat, ?_, ?_⟩
  · rw [hstat]
    intro h
    exact absurd (Option.some.inj h) (by decide)
  · intro h
    have hprod : (AmazonRunner.run_scraper
        (AmazonSpider.collectItems
          [⟨"<html>search results</html>", [sampleItem]⟩, ⟨blockedBody, []⟩])
        ["laptop"] "t1" ⟨[], []⟩).1.products.length = 1 := rfl
    rw [h] at hprod
    exact absurd hprod (by decide)

/-- C3 amended: block detection is NOT job-fatal in this code — the
    anti-block middleware returns every response unchanged (its only effect
    is a logged warning flag), collection is unaffected by blocking bodies,
    and the runner's job ends `completed` whenever any items were collected
    (all of them persisted via the dedup insert) and stays `pending`
    otherwise; no run ever produces a `failed` status or a reason string,
    and the jobs schema has no failure-reason column at all. -/
theorem C3_block_detection_amended :
    ∀ (rs : List AmazonSpider.CrawlResponse) (terms : List String)
      (now : String) (db : Database.DBState),
      (∀ body, (AmazonSpider.process_response body).1 = body) ∧
      AmazonSpider.collectItems rs =
        (rs.map AmazonSpider.CrawlResponse.items).flatten ∧
      ((∀ j ∈ db.jobs, j.job_id ≠ db.jobs.length + 1) →
        Database.jobStatus
          (AmazonRunner.run_scraper (AmazonSpider.collectItems rs) terms
            now db).1.jobs
          (AmazonRunner.run_scraper (AmazonSpider.collectItems rs) terms
            now db).2.1 =
          some (if (AmazonSpider.collectItems rs).isEmpty then "pending"
            else "completed")) := by
  intro rs terms now db
  refine ⟨fun _ => rfl, ?_, ?_⟩
  · unfold AmazonSpider.collectItems AmazonSpider.deliver
    rw [List.map_map]
    have hcomp : (AmazonSpider.CrawlResponse.items ∘
        fun r : AmazonSpider.CrawlResponse =>
          ({ body := (AmazonSpider.process_response r.body).1,
             items := r.items } : AmazonSpider.CrawlResponse)) =
        AmazonSpider.CrawlResponse.items :=
      funext (fun _ => rfl)
    rw [hcomp]
  · intro hfresh
    by_cases hempty : (AmazonSpider.collectItems rs).isEmpty = true
    · simp only [AmazonRunner.run_scraper, hempty, if_true]
      exact jobStatus_queue_pending hfresh
    · simp only [AmazonRunner.run_scraper, hempty, if_false,
        Bool.false_eq_true]
      exact jobStatus_queue_then_complete hfresh

/-- C3 witness: the amended statement at the counterexample's crawl — a
    blocked response body present, one item collected, job completed. -/
theorem C3_witness :
    Database.jobStatus
      (AmazonRunner.run_scraper
        (AmazonSpider.collectItems
          [⟨"<html>search results</html>", [sampleItem]⟩, ⟨blockedBody, []⟩])
        ["laptop"] "t1" ⟨[], []⟩).1.jobs
      (AmazonRunner.run_scraper
        (AmazonSpider.collectItems
          [⟨"<html>search results</html>", [sampleItem]⟩, ⟨blockedBody, []⟩])
        ["laptop"] "t1" ⟨[], []⟩).2.1 =
      some (if (AmazonSpider.collectItems
          [⟨"<html>search results</html>", [sampleItem]⟩,
            ⟨blockedBody, []⟩]).isEmpty then "pending" else "completed") :=
  (C3_block_detection_amended
    [⟨"<html>search results</html>", [sampleItem]⟩, ⟨blockedBody, []⟩]
    ["laptop"] "t1" ⟨[], []⟩).2.2 (by simp)

/-- The item the managed-crawl spider yields for a container whose title
    selector hit "Widget" while the price and link selectors all missed. -/
def widgetItem : AmazonSpider.AmazonItem :=
  { name := "Widget", price := none, link := none, search_term := "laptop",
    scrape_time := "t0", availability := "In Stock", rating := none,
    source := "Amazon" }

/-- C4 counterexample: a record with name "Widget", NULL link and NULL
    price-raw DOES reach the store — the managed-crawl extractor only
    requires a truthy title, and the runner inserts the record (NULL links
    are never dropped), so "never reaches the store" fails as stated. -/
theorem C4_counterexample :
    AmazonSpider.extract_single_product_enhanced (some "Widget") none none
      none "laptop" "t0" = some widgetItem ∧
    (AmazonRunner.run_scraper [widgetItem] ["laptop"] "t1"
        ⟨[], []⟩).1.products =
      [{ name := some "Widget", price := none, link := none, image := some "",
         availability := some "In Stock", scrape_time := some "t0",
         search_term := some "laptop", source := some "Amazon",
         job_id := some 1 }] ∧
    widgetItem.link = none ∧ widgetItem.price = none := by
  exact ⟨rfl, rfl, rfl, rfl⟩

/-- C4 amended: `is_valid` is exactly "truthy name and (truthy link or
    truthy price-raw)"; every record emitted by the static and browser
    extractors has both a truthy name and a truthy link, and every record
    emitted by the managed-crawl extractor has a truthy name — so a record
    lacking both name and identity-link is never emitted and never
    persisted. The validity gate is not applied on the persistence path,
    however: the managed-crawl extractor does not require a link or price,
    so a record with only a name (the "Widget" example) can reach the
    store. -/
theorem C4_validity_gate_amended :
    (∀ p : Models.Product, p.is_valid = true ↔
      (p.name ≠ "" ∧ (optTruthy p.link = true ∨ optTruthy p.price = true))) ∧
    (∀ (join : String → String → String) (base : String)
      (sel : StaticScraper.StaticSel) (ts : String)
      (d : StaticScraper.StaticRecord),
      StaticScraper.extract_data_static join base sel ts = some d →
      optTruthy d.name = true ∧ optTruthy d.link = true) ∧
    (∀ (raw : EbayScraper.EbayRaw) (page : ℕ) (it : EbayScraper.EbayItem),
      EbayScraper.extract_item_data raw page = some it →
      it.name ≠ "" ∧ it.link ≠ "") ∧
    (∀ (title price_text link rating : Option String) (term ts : String)
      (it : AmazonSpider.AmazonItem),
      AmazonSpider.extract_single_product_enhanced title price_text link
        rating term ts = some it →
      it.name ≠ "") := by
  refine ⟨?_, ?_, ?_, ?_⟩
  · intro p
    simp [Models.Product.is_valid, Bool.and_eq_true, Bool.or_eq_true]
  · intro join base sel ts d h
    unfold StaticScraper.extract_data_static at h
    by_cases hcond : (optTruthy (sel.name_text.map Helpers.sanitize_text) &&
        optTruthy (sel.link_href.map (join base))) = true
    · rw [if_pos hcond] at h
      obtain rfl := Option.some.inj h
      rw [Bool.and_eq_true] at hcond
      exact hcond
    · rw [if_neg hcond] at h
      exact absurd h (by simp)
  · intro raw page it h
    rcases hr : raw.name with _ | n0
    · simp only [EbayScraper.extract_item_data, hr] at h
      exact absurd h (by simp)
    · simp only [EbayScraper.extract_item_data, hr] at h
      by_cases hg : (pyStripStr n0 = "" ∨ pyStripStr n0 = "New Listing" ∨
          pyStripStr n0 = "Shop on eBay")
      · rw [if_pos hg] at h
        exact absurd h (by simp)
      · rw [if_neg hg] at h
        rcases hl : raw.link with _ | l
        · simp only [hl] at h
          exact absurd h (by simp)
        · simp only [hl] at h
          by_cases hl0 : l = ""
          · rw [if_pos hl0] at h
            exact absurd h (by simp)
          · rw [if_neg hl0] at h
            obtain rfl := Option.some.inj h
            exact ⟨fun h0 => hg (Or.inl h0), hl0⟩
  · intro title price_text link rating term ts it h
    rcases ht : title with _ | t
    · simp only [AmazonSpider.extract_single_product_enhanced, ht] at h
      exact absurd h (by simp)
    · simp only [AmazonSpider.extract_single_product_enhanced, ht] at h
      by_cases hg : pyStripStr t = ""
      · rw [if_pos hg] at h
        exact absurd h (by simp)
      · rw [if_neg hg] at h
        obtain rfl := Option.some.inj h
        exact hg

/-- The item the browser adapter extracts from `ebayRawA` on page 1. -/
def ebayItemA : EbayScraper.EbayItem :=
  { name := "iPhone 15", price := none, link := "https://ebay/1", page := 1, availability := "Unknown" }

/-- C4 witness: the amended statement applied at concrete extractor
    inputs — a browser-adapter item with name and link, and the
    managed-crawl "Widget" item with a name only. -/
theorem C4_witness :
    (ebayItemA.name ≠ "" ∧ ebayItemA.link ≠ "") ∧ widgetItem.name ≠ "" :=
  ⟨C4_validity_gate_amended.2.2.1 ebayRawA 1 ebayItemA (by decide),
   C4_validity_gate_amended.2.2.2 (some "Widget") none none none "laptop"
    "t0" widgetItem (by decide)⟩

lemma comma_not_mem_digits {a : List Char} (ha : ∀ c ∈ a, c.isDigit = true) :
    (',' : Char) ∉ a :=
  fun hm => (digit_ne_special (ha _ hm)).1 rfl

lemma dot_not_mem_digits {a : List Char} (ha : ∀ c ∈ a, c.isDigit = true) :
    ('.' : Char) ∉ a :=
  fun hm => (digit_ne_special (ha _ hm)).2.1 rfl

lemma filter_ne_comma_digits {a : List Char}
    (ha : ∀ c ∈ a, c.isDigit = true) :
    a.filter (fun c => c != ',') = a :=
  List.filter_eq_self.2 (fun c hc => by simp [(digit_ne_special (ha c hc)).1])

lemma cleanPrice_ne_empty {s : String} {cs : List Char}
    (h : DataProcessor.cleanPrice s = cs) (hcs : cs ≠ []) : s ≠ "" := by
  intro h0
  subst h0
  exact hcs (h.symm.trans (rfl : DataProcessor.cleanPrice "" = []))

/-- C6: separator disambiguation in `extract_numeric_price` — on any input
    whose stripped form is `digits , digits`, the comma is read as a decimal
    separator when at most 2 digits follow it and as a thousands separator
    otherwise; on any input whose stripped form is `digits , digits . digits`,
    the comma is removed and the period is the decimal separator. -/
theorem C6_separator_disambiguation :
    (∀ (s : String) (a b : List Char),
      (∀ c ∈ a, c.isDigit = true) → (∀ c ∈ b, c.isDigit = true) →
      a ++ b ≠ [] →
      DataProcessor.cleanPrice s = a ++ ',' :: b →
      DataProcessor.extract_numeric_price s =
        some (if b.length ≤ 2 then
          (natOfDigits a : ℚ) + (natOfDigits b : ℚ) / 10 ^ b.length
        else (natOfDigits (a ++ b) : ℚ))) ∧
    (∀ (s : String) (a b c : List Char),
      (∀ x ∈ a, x.isDigit = true) → (∀ x ∈ b, x.isDigit = true) →
      (∀ x ∈ c, x.isDigit = true) →
      (a ++ b) ++ c ≠ [] →
      DataProcessor.cleanPrice s = a ++ ',' :: (b ++ '.' :: c) →
      DataProcessor.extract_numeric_price s =
        some ((natOfDigits (a ++ b) : ℚ) +
          (natOfDigits c : ℚ) / 10 ^ c.length)) := by
  constructor
  · intro s a b ha hb hne h
    have hs : s ≠ "" := cleanPrice_ne_empty h (by simp)
    have hpd : ('.' : Char) ∉ a ++ ',' :: b := by
      intro hm
      rcases List.mem_append.1 hm with h1 | h1
      · exact dot_not_mem_digits ha h1
      · rcases List.mem_cons.1 h1 with h2 | h2
        · exact absurd h2 (by decide)
        · exact dot_not_mem_digits hb h2
    have hc2 : (a ++ ',' :: b).contains '.' = false := by simp [hpd]
    have hc1 : (a ++ ',' :: b).contains ',' = true := by simp
    have hsplit : splitChar ',' (a ++ ',' :: b) = [a, b] := by
      rw [splitChar_append_sep (comma_not_mem_digits ha),
        splitChar_not_mem (comma_not_mem_digits hb)]
    simp only [DataProcessor.extract_numeric_price, if_neg hs, h, hc1, hc2,
      Bool.and_false, Bool.false_eq_true, if_false, hsplit, if_true,
      List.length_cons, List.length_nil, List.getD_cons_succ,
      List.getD_cons_zero, Nat.reduceAdd, true_and]
    by_cases hb2 : b.length ≤ 2
    · simp only [if_pos hb2]
      have hmap : (a ++ ',' :: b).map (fun c => if c = ',' then '.' else c) =
          a ++ '.' :: b := by
        rw [List.map_append, List.map_cons, if_pos rfl,
          map_id_of (fun c hc => if_neg (digit_ne_special (ha c hc)).1),
          map_id_of (fun c hc => if_neg (digit_ne_special (hb c hc)).1)]
      rw [hmap, pyFloat_digits_dot ha hb hne]
    · simp only [if_neg hb2]
      have hfil : (a ++ ',' :: b).filter (fun c => c != ',') = a ++ b := by
        rw [List.filter_append, List.filter_cons]
        simp [filter_ne_comma_digits ha, filter_ne_comma_digits hb]
      have hall : ∀ c ∈ a ++ b, c.isDigit = true := by
        intro c hc
        rcases List.mem_append.1 hc with h1 | h1
        · exact ha c h1
        · exact hb c h1
      rw [hfil, pyFloat_digits hall hne]
  · intro s a b c ha hb hc hne h
    have hs : s ≠ "" := cleanPrice_ne_empty h (by simp)
    have hc2 : (a ++ ',' :: (b ++ '.' :: c)).contains '.' = true := by simp
    have hc1 : (a ++ ',' :: (b ++ '.' :: c)).contains ',' = true := by simp
    simp only [DataProcessor.extract_numeric_price, if_neg hs, h, hc1, hc2,
      Bool.and_self, if_true]
    have hfil : (a ++ ',' :: (b ++ '.' :: c)).filter (fun x => x != ',') =
        (a ++ b) ++ '.' :: c := by
      rw [List.filter_append, List.filter_cons, List.filter_append,
        List.filter_cons]
      simp [filter_ne_comma_digits ha, filter_ne_comma_digits hb,
        filter_ne_comma_digits hc, List.append_assoc,
        show (('.' : Char) != ',') = true from by decide]
    have hall : ∀ x ∈ a ++ b, x.isDigit = true := by
      intro x hx
      rcases List.mem_append.1 hx with h1 | h1
      · exact ha x h1
      · exact hb x h1
    rw [hfil, pyFloat_digits_dot hall hc hne]

/-- C6 witness: `"25,50"` (trailing group of 2) parses as 25.50, `"1,299"`
    (trailing group of 3) as 1299, and `"1,299.00"` (comma and period) as
    1299. -/
theorem C6_witness :
    DataProcessor.extract_numeric_price "25,50" = some (51 / 2) ∧
    DataProcessor.extract_numeric_price "1,299" = some 1299 ∧
    DataProcessor.extract_numeric_price "1,299.00" = some 1299 := by
  have h1 := C6_separator_disambiguation.1 "25,50" ['2', '5'] ['5', '0']
    (by decide) (by decide) (by decide) rfl
  have h2 := C6_separator_disambiguation.1 "1,299" ['1'] ['2', '9', '9']
    (by decide) (by decide) (by decide) rfl
  have h3 := C6_separator_disambiguation.2 "1,299.00" ['1'] ['2', '9', '9']
    ['0', '0'] (by decide) (by decide) (by decide) (by decide) rfl
  rw [show natOfDigits ['2', '5'] = 25 from by decide,
    show natOfDigits ['5', '0'] = 50 from by decide] at h1
  rw [show (['2', '9', '9'] : List Char).length = 3 from by decide] at h2
  rw [show natOfDigits (['1'] ++ ['2', '9', '9']) = 1299 from by decide] at h2
  rw [show natOfDigits (['1'] ++ ['2', '9', '9']) = 1299 from by decide,
    show natOfDigits ['0', '0'] = 0 from by decide] at h3
  refine ⟨?_, ?_, ?_⟩
  · rw [h1]
    norm_num
  · rw [h2]
    norm_num
  · rw [h3]
    norm_num
